import Mathlib

/-!
Verification of the Reflex Rush challenge-and-round engine.

The repository holds two near-identical Arduino sketches:
* `src/reflex_rush.ino` (namespace `ReflexRush` below), and
* `src/unnamed/part_000`, a "clean rewrite / party edition" sketch
  (namespace `PartyRewrite` below).

Both are single-threaded, tick-driven game engines.  The definitions in this
file are shallow embeddings of the functions of those sketches: machine
integers become `Nat` (with explicit `% 2 ^ w` where the C code relies on
fixed-width wraparound), the `random(lo, hi)` calls of the Arduino core become
explicit oracle arguments (the drawn value is passed in, constrained to the
interval `[lo, hi)` the call returns from), and mutation of the sketch's
globals becomes explicit state passing.  Display and LED calls have no effect
on the engine state and are dropped, except where an array read performed for
display purposes matters for a bounds claim (those reads are recorded
explicitly).
-/

/-- Unsigned 32-bit subtraction `a - b` as the C code computes it for
`uint32_t` operands (`millis()` timestamps): wraparound-safe difference.
For `a, b < 2 ^ 32` this is exactly the machine result. -/
def sub32 (a b : Nat) : Nat := (a + 2 ^ 32 - b) % 2 ^ 32

namespace ReflexRush

/-! ## Constants (`src/reflex_rush.ino`, lines 41-83) -/

def WINDOW_START_MS : Nat := 1800
def HARD_START_MS : Nat := 1000
def WINDOW_MIN_MS : Nat := 360
def WINDOW_STEP_MS : Nat := 20

def PTRN_TIMEOUT_MS : Nat := 1000
def PTRN_SHOW_STEP_MS : Nat := 260
def PTRN_GAP_MS : Nat := 120
def PTRN_MAX_SEQ : Nat := 20

def G67_INTRO_POINTS : Nat := 10
def G67_START_INTRO_MS : Nat := 2600
def G67_START_TRICK_MS : Nat := 2100
def G67_MIN_MS : Nat := 520
def G67_STEP_MS : Nat := 30

def G67_CHORD_WIN_MS : Nat := 520
def G67_SEQ_WIN_MS : Nat := 950

def EEPROM_BASE_ADDR : Nat := 0

/-! ## Timer (`src/reflex_rush.ino`, lines 118-128) -/

/-- The `Timer` struct: a start timestamp and a duration, both `uint32_t`. -/
structure Timer where
  t0 : Nat
  dur : Nat
deriving DecidableEq, Repr

/-- `Timer::done`: `dur != 0 && (now - t0) >= dur`.  Note the explicit
`dur != 0` guard: a zero-duration timer never reports done. -/
def Timer.done (tm : Timer) (now : Nat) : Bool :=
  tm.dur != 0 && tm.dur ≤ sub32 now tm.t0

/-! ## Difficulty controller (`src/reflex_rush.ino`, lines 332-346) -/

/-- `shrinkWindowGeneric` (lines 332-338): shrink the CLSC/HARD/NOT window by
`WINDOW_STEP_MS`, clamped to `WINDOW_MIN_MS`. -/
def shrinkWindowGeneric (w : Nat) : Nat :=
  if w ≤ WINDOW_MIN_MS then WINDOW_MIN_MS
  else if WINDOW_MIN_MS + WINDOW_STEP_MS < w then w - WINDOW_STEP_MS
  else WINDOW_MIN_MS

/-- `shrinkWindow67` (lines 340-346): shrink the 67-game window by
`G67_STEP_MS`, clamped to `G67_MIN_MS`. -/
def shrinkWindow67 (w : Nat) : Nat :=
  if w ≤ G67_MIN_MS then G67_MIN_MS
  else if G67_MIN_MS + G67_STEP_MS < w then w - G67_STEP_MS
  else G67_MIN_MS

/-- The per-tick round-timeout test of `playingTick` (lines 876-878):
`(now - G.roundStartMs) >= G.windowMs` triggers `enterGameOver`. -/
def playingTickTimesOut (now roundStartMs windowMs : Nat) : Bool :=
  windowMs ≤ sub32 now roundStartMs

/-! ## EEPROM high-score persistence (`src/reflex_rush.ino`, lines 218-229)

The EEPROM is modelled as a map from address to the `uint16_t` cell that
`EEPROM.get`/`EEPROM.put` move at that address.  Factory-fresh (never written)
EEPROM reads as all-ones bytes, hence `0xFFFF` per cell. -/

/-- `hiAddr`: `EEPROM_BASE_ADDR + id * 2`. -/
def hiAddr (id : Nat) : Nat := EEPROM_BASE_ADDR + id * 2

/-- `eepromLoadHi`: read the `uint16_t` at `hiAddr id`; `0xFFFF` decodes
to `0`. -/
def eepromLoadHi (rom : Nat → Nat) (id : Nat) : Nat :=
  let v := rom (hiAddr id)
  if v = 65535 then 0 else v

/-- `eepromSaveHi`: `EEPROM.put(hiAddr(id), v)` with `v` a `uint16_t`. -/
def eepromSaveHi (rom : Nat → Nat) (id v : Nat) : Nat → Nat :=
  fun a => if a = hiAddr id then v % 65536 else rom a

/-- A never-written EEPROM: every cell reads as all-ones. -/
def eepromFresh : Nat → Nat := fun _ => 65535

/-! ## Button input (`src/reflex_rush.ino`, lines 101-104 and 314-326) -/

/-- The `ButtonEvent` global `gBtn`. -/
structure ButtonEvent where
  num : Nat
  hasDown : Bool
deriving DecidableEq, Repr

/-- Modelled from the spec: the MultiFuncShield library (not part of this
repository) packs a button report byte as action tag in the top two bits and
button number in the low six bits; `BUTTON_PRESSED_IND` is the pressed tag.
Its concrete value only matters as "the tag the sketch compares against". -/
def BUTTON_PRESSED_IND : Nat := 64

/-- `readButtons` (lines 314-326) for a raw report byte `raw < 256`:
clear `hasDown`, return on `raw == 0`, split `raw` into
`num = raw & 0x3F` and `act = raw & 0xC0`, and record a down event —
with the six-bit number passed through unchecked — exactly when the
action tag is `BUTTON_PRESSED_IND`. -/
def readButtons (prev : ButtonEvent) (raw : Nat) : ButtonEvent :=
  if raw = 0 then { prev with hasDown := false }
  else if raw - raw % 64 = BUTTON_PRESSED_IND then { num := raw % 64, hasDown := true }
  else { prev with hasDown := false }

/-! ## Single-press evaluation and the NOT round
(`src/reflex_rush.ino`, lines 404-440 and 881-893) -/

/-- Outcome of a button-down in a single-press round. -/
inductive Outcome where
  | success
  | gameOver
deriving DecidableEq, Repr

/-- The CLSC/HARD/NOT branch of `playingHandleDown` (lines 885-892):
`if (btn != G.expectedBtn) enterGameOver; else { G.score++; ... }`. -/
def playingHandleDown (expectedBtn btn : Nat) : Outcome :=
  if btn ≠ expectedBtn then .gameOver else .success

/-- The ascending swap of `newRoundNot` (line 425):
`if (a > b) { swap(a, b) }`; the pair `(auxA, auxB)` is stored sorted. -/
def newRoundNotSort (a b : Nat) : Nat × Nat :=
  if b < a then (b, a) else (a, b)

/-- The expected-button scan of `newRoundNot` (lines 435-436):
`exp = 1; for (k = 1..3) if (k != a && k != b) exp = k;`. -/
def newRoundNotExpected (a b : Nat) : Nat :=
  let exp := 1
  let exp := if 1 ≠ a ∧ 1 ≠ b then 1 else exp
  let exp := if 2 ≠ a ∧ 2 ≠ b then 2 else exp
  let exp := if 3 ≠ a ∧ 3 ≠ b then 3 else exp
  exp

/-- The resampling loop of `newRoundNot` (line 424):
`do { b = random(1, 4); } while (b == a);`, run against an (adversarially
finite) stream of draws: the first draw different from `a` is kept. -/
def newRoundNotDrawB (a : Nat) (draws : List Nat) : Option Nat :=
  draws.find? (fun b => b != a)

/-- The claimed shape of one NOT round whose forbidden pair was drawn as
`(a, b)` (the loop's postcondition gives `b ≠ a`, both in 1..3): the stored
pair is sorted ascending within 1..3, the expected button is the unique
member of {1, 2, 3} outside the pair, pressing it is the unique
success-producing press, and pressing either forbidden value fails. -/
abbrev notRoundSpec (a b : Nat) : Prop :=
  (newRoundNotSort a b).1 < (newRoundNotSort a b).2 ∧
  (newRoundNotSort a b).1 ∈ ([1, 2, 3] : List Nat) ∧
  (newRoundNotSort a b).2 ∈ ([1, 2, 3] : List Nat) ∧
  newRoundNotExpected (newRoundNotSort a b).1 (newRoundNotSort a b).2 ∈
    ([1, 2, 3] : List Nat) ∧
  (∀ k ∈ ([1, 2, 3] : List Nat),
    (k ≠ (newRoundNotSort a b).1 ∧ k ≠ (newRoundNotSort a b).2) ↔
      k = newRoundNotExpected (newRoundNotSort a b).1 (newRoundNotSort a b).2) ∧
  (∀ k ∈ ([1, 2, 3] : List Nat),
    playingHandleDown
        (newRoundNotExpected (newRoundNotSort a b).1 (newRoundNotSort a b).2) k =
      .success ↔
      k = newRoundNotExpected (newRoundNotSort a b).1 (newRoundNotSort a b).2) ∧
  playingHandleDown
      (newRoundNotExpected (newRoundNotSort a b).1 (newRoundNotSort a b).2)
      (newRoundNotSort a b).1 = .gameOver ∧
  playingHandleDown
      (newRoundNotExpected (newRoundNotSort a b).1 (newRoundNotSort a b).2)
      (newRoundNotSort a b).2 = .gameOver

/-! ## The 67 game (`src/reflex_rush.ino`, lines 130-145 and 534-807)

Randomness (`random(lo, hi)` calls) is passed in as oracle arguments. -/

/-- The `G67Stage` enumerators (lines 131-145), as their `uint8_t` values. -/
def G67_INTRO : Nat := 0
def G67_SWAP : Nat := 1
def G67_NOT : Nat := 2
def G67_FLASH : Nat := 3
def G67_FLASH_NOT : Nat := 4
def G67_GHOST : Nat := 5
def G67_BLINK : Nat := 6
def G67_CHORD : Nat := 7
def G67_SEQ_67 : Nat := 8
def G67_SEQ_76 : Nat := 9
def G67_SHORT_WIN : Nat := 10
def G67_TRICK_MIX : Nat := 11
def G67_STAGE_COUNT : Nat := 12

/-- `pickTrickStageWeighted` (lines 540-551), with `r` the value returned by
`random(0, 100)` (so `r < 100`): a cumulative-threshold weighted pick. -/
def pickTrickStageWeighted (r : Nat) : Nat :=
  if r < 25 then G67_TRICK_MIX
  else if r < 43 then G67_FLASH_NOT
  else if r < 57 then G67_NOT
  else if r < 68 then G67_CHORD
  else if r < 78 then G67_SEQ_67
  else if r < 88 then G67_SEQ_76
  else if r < 94 then G67_GHOST
  else if r < 98 then G67_BLINK
  else G67_SHORT_WIN

/-- `g67ScheduleNextStageChange` (lines 553-556): the next stage change is
scheduled 6 or 7 points ahead, the choice drawn by `random(0, 2)` (oracle
argument `rStep ∈ {0, 1}`); stored in a `uint16_t`. -/
def g67ScheduleNextStageChange (score rStep : Nat) : Nat :=
  (score + (if rStep = 0 then 6 else 7)) % 65536

/-- `g67UpdateStageIfNeeded` (lines 558-572), called at each round start.
State `(stage, nextAt)` is `(g67Stage, g67NextStageAtScore)`; `rStage` and
`rStep` are the oracle values for `random(0, 100)` and `random(0, 2)` drawn
if a re-roll happens. -/
def g67UpdateStageIfNeeded (score stage nextAt rStage rStep : Nat) : Nat × Nat :=
  if score < G67_INTRO_POINTS then (G67_INTRO, nextAt)
  else if stage = G67_INTRO then
    (pickTrickStageWeighted rStage, g67ScheduleNextStageChange score rStep)
  else if nextAt ≤ score then
    (pickTrickStageWeighted rStage, g67ScheduleNextStageChange score rStep)
  else (stage, nextAt)

/-- The `(g67Stage, g67NextStageAtScore)` pair seen by the round that starts
at score `n` of a 67 session, for the oracle `d` (`d k = (rStage, rStep)`
used if the round at score `k` re-rolls).  `enterPlaying` (lines 821-826)
initialises `g67Stage = G67_INTRO`, `g67NextStageAtScore = 0`, and
`g67BeginRound` runs `g67UpdateStageIfNeeded` first (line 620); each success
raises the score by exactly 1 and begins the next round. -/
def g67Run (d : Nat → Nat × Nat) : Nat → Nat × Nat
  | 0 => g67UpdateStageIfNeeded 0 G67_INTRO 0 (d 0).1 (d 0).2
  | n + 1 =>
    g67UpdateStageIfNeeded (n + 1) (g67Run d n).1 (g67Run d n).2
      (d (n + 1)).1 (d (n + 1)).2

/-- The shortened-window multiplication of `g67BeginRound` (line 685):
`w = (uint16_t)(w * 0.62f)`.  The float literal `0.62f` is exactly
`10401874 / 2 ^ 24`; for the window values involved the single float multiply
rounds to a value with the same integer part as the exact real product, so
truncation to `uint16_t` equals this floor. -/
def g67ShortWin (w : Nat) : Nat := w * 10401874 / 2 ^ 24

/-- The window selection of `g67BeginRound` (lines 633-638): intro rounds
start from `G67_START_INTRO_MS` at score 0, the first trick round (score
`G67_INTRO_POINTS`) from `G67_START_TRICK_MS`, every other round from the
current `G.windowMs`. -/
def g67BaseWindow (stageIsIntro : Bool) (score windowMs : Nat) : Nat :=
  if stageIsIntro then (if score = 0 then G67_START_INTRO_MS else windowMs)
  else (if score = G67_INTRO_POINTS then G67_START_TRICK_MS else windowMs)

/-- The full window computation of `g67BeginRound` (lines 633-638 and 685):
base window, then the `shortWin` cut when the round's stage resolved the
short-window behaviour.  `startReflexRound` (lines 348-353) then stores this
value back into `G.windowMs`. -/
def g67RoundWindow (stageIsIntro shortWin : Bool) (score windowMs : Nat) : Nat :=
  if shortWin then g67ShortWin (g67BaseWindow stageIsIntro score windowMs)
  else g67BaseWindow stageIsIntro score windowMs

/-- The digit order of a sequence round in `g67BeginRound` (lines 693-697):
`firstD/secondD` from `seq76`, swapped again when `swap` is set. -/
def g67SeqDigits (seq76 swap : Bool) : Nat × Nat :=
  let firstD := if seq76 then 7 else 6
  let secondD := if seq76 then 6 else 7
  if swap then (secondD, firstD) else (firstD, secondD)

/-- The expectation set up by `g67ShowSeq` (lines 601-617):
`g67SeqFirstBtn = (firstDigit == 6) ? 1 : 3` and
`G.auxA = (secondDigit == 6) ? 1 : 3` (the second expected button). -/
def g67ShowSeqAssigns (firstDigit secondDigit : Nat) : Nat × Nat :=
  ((if firstDigit = 6 then 1 else 3), (if secondDigit = 6 then 1 else 3))

/-- Result of `g67HandleDown`: either the round continues with updated
chord/sequence progress, or it is decided.  `success` stands for the
source's `G.score++; shrinkWindow67(); g67BeginRound(now);` and `gameOver`
for `enterGameOver(now)`. -/
inductive G67Outcome where
  | pendingChord (chordFirstBtn : Nat) (chordTimer : Timer)
  | pendingSeq (seqTimer : Timer)
  | success
  | gameOver
deriving DecidableEq, Repr

/-- `g67HandleDown` (lines 756-807).  Arguments mirror the globals it reads:
`roundChord/chordWaitingSecond/chordFirstBtn/chordTimer` for the chord round,
`roundSeq/seqWaitingSecond/seqFirstBtn/auxA/seqTimer` for the sequence round,
and `expectedBtn` for the normal mapping. -/
def g67HandleDown (now btn : Nat)
    (roundChord chordWaitingSecond : Bool) (chordFirstBtn : Nat) (chordTimer : Timer)
    (roundSeq seqWaitingSecond : Bool) (seqFirstBtn auxA : Nat) (seqTimer : Timer)
    (expectedBtn : Nat) : G67Outcome :=
  if roundChord then
    if !chordWaitingSecond then
      .pendingChord btn ⟨now, G67_CHORD_WIN_MS⟩
    else
      if chordTimer.done now then .gameOver
      else if btn = chordFirstBtn then .gameOver
      else if (chordFirstBtn = 1 ∧ btn = 3) ∨ (chordFirstBtn = 3 ∧ btn = 1) then .success
      else .gameOver
  else if roundSeq then
    if !seqWaitingSecond then
      if btn ≠ seqFirstBtn then .gameOver
      else .pendingSeq ⟨now, G67_SEQ_WIN_MS⟩
    else
      if seqTimer.done now then .gameOver
      else if btn ≠ auxA then .gameOver
      else .success
  else
    if btn ≠ expectedBtn then .gameOver else .success

/-! ## The Ptrn memory game (`src/reflex_rush.ino`, lines 147-148, 173-181
and 446-530)

The Ptrn globals become one state record.  `enterGameOver` is modelled by the
`over` flag: once set, the mode machine leaves `MODE_PLAYING` and no Ptrn
handler runs again, so all transitions below are the identity on `over`
states.  Each transition also returns the list of indices at which
`ptrnSeq[...]` was read during it, so that bounds claims can be stated about
every array access the source performs. -/

/-- `PtrnPhase` (line 148). -/
inductive PtrnPhase where
  | showing
  | input
deriving DecidableEq, Repr

/-- The Ptrn globals (lines 173-181) together with the shared `G.score` and
the mode flag. -/
structure PtrnState where
  phase : PtrnPhase
  seq : List Nat
  len : Nat
  idx : Nat
  showPos : Nat
  showingDigit : Bool
  showTimer : Timer
  inputTimer : Timer
  score : Nat
  over : Bool
deriving DecidableEq, Repr

/-- `ptrnReset` (lines 446-451): length 1, index 0, sequence zeroed and its
first element drawn by `random(1, 4)` (oracle argument `d`). -/
def ptrnReset (d : Nat) (s : PtrnState) : PtrnState :=
  { s with len := 1, idx := 0, seq := (List.replicate PTRN_MAX_SEQ 0).set 0 d }

/-- `ptrnExtend` (lines 453-458): append one drawn element if below
`PTRN_MAX_SEQ`, else do nothing. -/
def ptrnExtend (d : Nat) (s : PtrnState) : PtrnState :=
  if s.len < PTRN_MAX_SEQ then
    { s with seq := s.seq.set s.len d, len := s.len + 1 }
  else s

/-- `ptrnBeginShow` (lines 460-466). -/
def ptrnBeginShow (now : Nat) (s : PtrnState) : PtrnState :=
  { s with phase := .showing, showPos := 0, showingDigit := true,
           showTimer := ⟨now, PTRN_SHOW_STEP_MS⟩ }

/-- `ptrnBeginInput` (lines 468-473). -/
def ptrnBeginInput (now : Nat) (s : PtrnState) : PtrnState :=
  { s with phase := .input, idx := 0, inputTimer := ⟨now, PTRN_TIMEOUT_MS⟩ }

/-- The Ptrn session entry: `enterPlaying` for `GAME_PTRN` (lines 829-834)
resets the score, runs `ptrnReset` and `ptrnBeginShow`. -/
def ptrnInit (d now : Nat) : PtrnState :=
  ptrnBeginShow now (ptrnReset d
    { phase := .showing, seq := List.replicate PTRN_MAX_SEQ 0, len := 1,
      idx := 0, showPos := 0, showingDigit := true, showTimer := ⟨0, 0⟩,
      inputTimer := ⟨0, 0⟩, score := 0, over := false })

/-- `ptrnTick` (lines 485-514).  The second component lists the sequence
indices read this tick (`ptrnSeq[ptrnShowPos]` at line 504). -/
def ptrnTick (now : Nat) (s : PtrnState) : PtrnState × List Nat :=
  if s.over then (s, [])
  else match s.phase with
    | .showing =>
      if s.len ≤ s.showPos then (ptrnBeginInput now s, [])
      else if s.showTimer.done now then
        if s.showingDigit then
          ({ s with showingDigit := false, showTimer := ⟨now, PTRN_GAP_MS⟩ }, [])
        else
          ({ s with showPos := s.showPos + 1, showingDigit := true,
                    showTimer := ⟨now, PTRN_SHOW_STEP_MS⟩ }, [])
      else if s.showingDigit then (s, [s.showPos])
      else (s, [])
    | .input =>
      if s.inputTimer.done now then ({ s with over := true }, [])
      else (s, [])

/-- `ptrnHandleDown` (lines 516-530).  `d` is the oracle value for the
`random(1, 4)` draw inside `ptrnExtend` should the replay complete.  The
second component lists the sequence indices read (`ptrnSeq[ptrnIndex]` at
line 519). -/
def ptrnHandleDown (now btn d : Nat) (s : PtrnState) : PtrnState × List Nat :=
  if s.over then (s, [])
  else if s.phase ≠ .input then (s, [])
  else if s.inputTimer.done now then ({ s with over := true }, [])
  else if btn ≠ s.seq.getD s.idx 0 then ({ s with over := true }, [s.idx])
  else
    let s1 := { s with idx := s.idx + 1, inputTimer := ⟨now, PTRN_TIMEOUT_MS⟩ }
    if s1.len ≤ s1.idx then
      (ptrnBeginShow now (ptrnExtend d { s1 with score := s1.score + 1 }), [s.idx])
    else (s1, [s.idx])

/-- One engine-loop interaction with the Ptrn game: a tick, or a button-down
event (which in `loop` is always preceded by a tick at the same `now`;
allowing the events in any order only enlarges the set of reachable states). -/
inductive PtrnStep where
  | tick (now : Nat)
  | down (now btn d : Nat)

/-- Dispatch of a `PtrnStep` (the `MODE_PLAYING`/`GAME_PTRN` arms of `loop`,
`playingTick` and `playingHandleDown`). -/
def ptrnApply : PtrnStep → PtrnState → PtrnState × List Nat
  | .tick now, s => ptrnTick now s
  | .down now btn d, s => ptrnHandleDown now btn d s

/-- The Ptrn states reachable within one Playing session. -/
inductive PtrnReachable : PtrnState → Prop
  | init (d now : Nat) : PtrnReachable (ptrnInit d now)
  | step (st : PtrnStep) {s : PtrnState} :
      PtrnReachable s → PtrnReachable (ptrnApply st s).1

/-- The Ptrn bounds invariant: the backing array always has its declared
20 elements, the live length is between 1 and `PTRN_MAX_SEQ`, and during the
input phase of a live session the input cursor is below the live length. -/
def PtrnInv (s : PtrnState) : Prop :=
  s.seq.length = PTRN_MAX_SEQ ∧ 1 ≤ s.len ∧ s.len ≤ PTRN_MAX_SEQ ∧
    (s.over = false → s.phase = .input → s.idx < s.len)

end ReflexRush

namespace PartyRewrite

/-! ## The 6OR7 stage selector (`src/unnamed/part_000`, lines 121-140 and
453-468) -/

/-- The `Six7Stage` enumerators (lines 121-138), as their `uint8_t` values. -/
def S7_NORMAL : Nat := 0
def S7_COUNT : Nat := 15

/-- `six7PickNewStage` (lines 453-460): bucket 0 forces `S7_NORMAL`; later
buckets draw `random(1, S7_COUNT)` (oracle argument `d ∈ [1, 15)`). -/
def six7PickNewStage (score d : Nat) : Nat :=
  if score / 5 = 0 then S7_NORMAL else d

/-- `six7UpdateStageIfNeeded` (lines 462-468): the score/5 bucket is cast to
`uint8_t` and compared with the stored `six7StageBlock`; on a change the
block is stored and the stage re-rolled. -/
def six7UpdateStageIfNeeded (score stageBlock stage d : Nat) : Nat × Nat :=
  if score / 5 % 256 ≠ stageBlock then (six7PickNewStage score d, score / 5 % 256)
  else (stage, stageBlock)

/-- The `(six7Stage, six7StageBlock)` pair seen by the round that starts at
score `n` of a 6OR7 session, for draw oracle `d`.  `enterPlaying`
(lines 828-831) sets `six7StageBlock = 0xFF` and `six7BeginRound` runs
`six7UpdateStageIfNeeded` first (line 533); the stage global starts at its
initialiser `S7_NORMAL` (line 140); each success raises the score by exactly
1 and begins the next round. -/
def six7Run (d : Nat → Nat) : Nat → Nat × Nat
  | 0 => six7UpdateStageIfNeeded 0 255 S7_NORMAL (d 0)
  | n + 1 =>
    six7UpdateStageIfNeeded (n + 1) (six7Run d n).2 (six7Run d n).1 (d (n + 1))

end PartyRewrite

namespace PartyRewrite

/-! ## Constants (`src/unnamed/part_000`, lines 15-36) -/

def WINDOW_START_MS : Nat := 1800
def WINDOW_MIN_MS : Nat := 360
def WINDOW_STEP_MS : Nat := 20
def CORD_MAX_SEQ : Nat := 20

/-! ## Timer (`src/unnamed/part_000`, lines 77-87) -/

/-- The rewrite's `Timer` struct.  Unlike `ReflexRush.Timer`, its `done` has
no zero-duration guard. -/
structure Timer where
  t0 : Nat
  dur : Nat
deriving DecidableEq, Repr

/-- `Timer::done` of the rewrite: `(now - t0) >= dur`, with no special case
for `dur == 0`. -/
def Timer.done (tm : Timer) (now : Nat) : Bool :=
  tm.dur ≤ sub32 now tm.t0

/-- `shrinkWindow` (`src/unnamed/part_000`, lines 292-298); textually the same
step/floor logic as `ReflexRush.shrinkWindowGeneric`. -/
def shrinkWindow (w : Nat) : Nat :=
  if w ≤ WINDOW_MIN_MS then WINDOW_MIN_MS
  else if WINDOW_MIN_MS + WINDOW_STEP_MS < w then w - WINDOW_STEP_MS
  else WINDOW_MIN_MS

end PartyRewrite

/-- Draw oracle for a concrete 67 session: the re-roll at score 10 draws
`random(0, 100) = 57` (stage `G67_CHORD`) and `random(0, 2) = 0` (next change
6 points later, at score 16); the re-roll at score 16 draws `0`
(stage `G67_TRICK_MIX`). -/
def c2Draws : Nat → Nat × Nat := fun n => if n = 16 then (0, 0) else (57, 0)

/-- A concrete Ptrn state: input phase, sequence `[2, 0, ..., 0]` of live
length 1, cursor at 0, input timer armed at time 5. -/
def c4State : ReflexRush.PtrnState :=
  { phase := .input, seq := (List.replicate 20 0).set 0 2, len := 1, idx := 0,
    showPos := 0, showingDigit := true, showTimer := ⟨0, 260⟩,
    inputTimer := ⟨5, 1000⟩, score := 0, over := false }

/-! # Helper lemmas -/

namespace ReflexRush

theorem shrinkWindowGeneric_ge (w : Nat) : WINDOW_MIN_MS ≤ shrinkWindowGeneric w := by
  unfold shrinkWindowGeneric WINDOW_MIN_MS WINDOW_STEP_MS
  split_ifs <;> omega

theorem shrinkWindowGeneric_le (w : Nat) (h : WINDOW_MIN_MS ≤ w) :
    shrinkWindowGeneric w ≤ w := by
  unfold shrinkWindowGeneric WINDOW_MIN_MS WINDOW_STEP_MS at *
  split_ifs <;> omega

theorem shrinkWindow67_ge (w : Nat) : G67_MIN_MS ≤ shrinkWindow67 w := by
  unfold shrinkWindow67 G67_MIN_MS G67_STEP_MS
  split_ifs <;> omega

theorem shrinkWindow67_le (w : Nat) (h : G67_MIN_MS ≤ w) : shrinkWindow67 w ≤ w := by
  unfold shrinkWindow67 G67_MIN_MS G67_STEP_MS at *
  split_ifs <;> omega

theorem ptrnInv_init (d now : Nat) : PtrnInv (ptrnInit d now) := by
  simp [PtrnInv, ptrnInit, ptrnBeginShow, ptrnReset, PTRN_MAX_SEQ]

theorem ptrnInv_apply (st : PtrnStep) (s : PtrnState) (h : PtrnInv s) :
    PtrnInv (ptrnApply st s).1 := by
  obtain ⟨ph, sq, ln, ix, sp, sd, stm, itm, sc, ov⟩ := s
  obtain ⟨h1, h2, h3, h4⟩ := h
  simp only [PtrnInv] at *
  cases st with
  | tick now =>
    cases ph <;>
      simp only [ptrnApply, ptrnTick, ptrnBeginInput] <;>
      split_ifs <;>
      simp_all <;>
      omega
  | down now btn d =>
    cases ph <;>
      simp only [ptrnApply, ptrnHandleDown, ptrnBeginShow, ptrnExtend] <;>
      split_ifs <;>
      simp_all [List.length_set, PTRN_MAX_SEQ] <;>
      omega

theorem ptrnInv_reachable {s : PtrnState} (h : PtrnReachable s) : PtrnInv s := by
  induction h with
  | init d now => exact ptrnInv_init d now
  | step st hs ih => exact ptrnInv_apply st _ ih

theorem ptrnReads_lt (st : PtrnStep) (s : PtrnState) (h : PtrnInv s) :
    ∀ i ∈ (ptrnApply st s).2, i < s.len := by
  obtain ⟨ph, sq, ln, ix, sp, sd, stm, itm, sc, ov⟩ := s
  obtain ⟨h1, h2, h3, h4⟩ := h
  simp only [PtrnInv] at *
  cases st with
  | tick now =>
    cases ph <;>
      simp only [ptrnApply, ptrnTick, ptrnBeginInput] <;>
      split_ifs <;>
      simp_all <;>
      omega
  | down now btn d =>
    cases ph <;>
      simp only [ptrnApply, ptrnHandleDown, ptrnBeginShow, ptrnExtend] <;>
      split_ifs <;>
      simp_all <;>
      omega

theorem ptrnApply_len_le (st : PtrnStep) (s : PtrnState) (h : s.len ≤ PTRN_MAX_SEQ) :
    ((ptrnApply st s).1).len ≤ PTRN_MAX_SEQ := by
  obtain ⟨ph, sq, ln, ix, sp, sd, stm, itm, sc, ov⟩ := s
  cases st with
  | tick now =>
    cases ph <;>
      simp only [ptrnApply, ptrnTick, ptrnBeginInput] <;>
      split_ifs <;>
      simp_all
  | down now btn d =>
    cases ph <;>
      simp only [ptrnApply, ptrnHandleDown, ptrnBeginShow, ptrnExtend] <;>
      split_ifs <;>
      simp_all [PTRN_MAX_SEQ] <;>
      omega

end ReflexRush

namespace PartyRewrite

theorem six7Run_block (d : Nat → Nat) : ∀ n, (six7Run d n).2 = n / 5 % 256
  | 0 => by simp [six7Run, six7UpdateStageIfNeeded]
  | n + 1 => by
    have ih := six7Run_block d n
    rw [six7Run, six7UpdateStageIfNeeded]
    by_cases h : (n + 1) / 5 % 256 = (six7Run d n).2
    · rw [if_neg (by simpa using h)]
      simpa using h.symm
    · rw [if_pos (by simpa using h)]

theorem six7Run_first_bucket (d : Nat → Nat) :
    ∀ n, n < 5 → (six7Run d n).1 = S7_NORMAL
  | 0, _ => by simp [six7Run, six7UpdateStageIfNeeded, six7PickNewStage]
  | n + 1, h => by
    have ih := six7Run_first_bucket d n (by omega)
    have hb := six7Run_block d n
    have hd1 : (n + 1) / 5 = 0 := Nat.div_eq_of_lt h
    have hd0 : n / 5 = 0 := Nat.div_eq_of_lt (by omega)
    rw [six7Run, six7UpdateStageIfNeeded, if_neg (by rw [hb, hd1, hd0]; simp)]
    exact ih

theorem six7Run_same_bucket (d : Nat → Nat) (n : Nat) (h : (n + 1) / 5 = n / 5) :
    (six7Run d (n + 1)).1 = (six7Run d n).1 := by
  have hb := six7Run_block d n
  rw [six7Run, six7UpdateStageIfNeeded, if_neg (by rw [hb, h]; simp)]

end PartyRewrite

/-! # Claim theorems -/

section Claims

open ReflexRush

set_option maxRecDepth 4000 in
/-- C1 counterexample.  The claim says the 67-game window never goes below
`G67_MIN_MS = 520`, "for every trick stage including the shortened-window
stage".  But `G67_SHORT_WIN` is a pickable stage (`random(0,100) = 98`),
a window of exactly 520 ms is reached after 53 post-intro successes, and a
shortened-window round started there sets `G.windowMs` to
`(uint16_t)(520 * 0.62f) = 322 < 520`; the next success's `shrinkWindow67`
then raises it back to 520, re-expanding the window within the session. -/
theorem c1_counterexample :
    pickTrickStageWeighted 98 = G67_SHORT_WIN ∧
    shrinkWindow67^[53] G67_START_TRICK_MS = 520 ∧
    g67RoundWindow false true 63 520 = 322 ∧
    322 < G67_MIN_MS ∧
    shrinkWindow67 322 = 520 := by decide

/-- C1 (amended): within a Playing session the reflex window is monotonically
non-increasing and floor-clamped for every round outside the 67 game's
shortened-window stage: `shrinkWindowGeneric` never increases a window that
is at least `WINDOW_MIN_MS = 360` and never returns below 360;
`shrinkWindow67` never increases a window that is at least
`G67_MIN_MS = 520` and never returns below 520; and a non-shortened 67 round
start away from the two fixed re-seed scores (0 and `G67_INTRO_POINTS`)
leaves the window unchanged. -/
theorem c1_window_monotone_amended :
    (∀ w, WINDOW_MIN_MS ≤ w →
      shrinkWindowGeneric w ≤ w ∧ WINDOW_MIN_MS ≤ shrinkWindowGeneric w) ∧
    (∀ w, G67_MIN_MS ≤ w →
      shrinkWindow67 w ≤ w ∧ G67_MIN_MS ≤ shrinkWindow67 w) ∧
    (∀ (intro : Bool) (score w : Nat), score ≠ 0 → score ≠ G67_INTRO_POINTS →
      g67RoundWindow intro false score w = w) := by
  refine ⟨fun w h => ⟨shrinkWindowGeneric_le w h, shrinkWindowGeneric_ge w⟩,
    fun w h => ⟨shrinkWindow67_le w h, shrinkWindow67_ge w⟩,
    fun intro score w h0 h10 => ?_⟩
  cases intro <;> simp [g67RoundWindow, g67BaseWindow, h0, h10]

/-- C1 witness: the amended statement at concrete windows. -/
theorem c1_window_monotone_amended_witness :
    (shrinkWindowGeneric 1800 ≤ 1800 ∧ WINDOW_MIN_MS ≤ shrinkWindowGeneric 1800) ∧
    (shrinkWindow67 2100 ≤ 2100 ∧ G67_MIN_MS ≤ shrinkWindow67 2100) ∧
    g67RoundWindow false false 5 700 = 700 :=
  ⟨c1_window_monotone_amended.1 1800 (by decide),
   c1_window_monotone_amended.2.1 2100 (by decide),
   c1_window_monotone_amended.2.2 false 5 700 (by decide) (by decide)⟩

set_option maxRecDepth 8000 in
/-- C6: starting from an 1800 ms window, 100 consecutive applications of the
success-path shrink (`shrinkWindowGeneric`, step 20 ms, floor 360 ms) end at
exactly 360 ms, and no prefix of the iteration ever goes below 360 ms; the
rewrite's `shrinkWindow` computes the identical function. -/
theorem c6_hundred_successes :
    shrinkWindowGeneric^[100] 1800 = 360 ∧
    (∀ k : Nat, 360 ≤ shrinkWindowGeneric^[k] 1800) ∧
    (∀ w : Nat, PartyRewrite.shrinkWindow w = shrinkWindowGeneric w) := by
  refine ⟨by decide, fun k => ?_, fun w => rfl⟩
  cases k with
  | zero => decide
  | succ k =>
    rw [Function.iterate_succ_apply']
    exact shrinkWindowGeneric_ge _

/-- C7 counterexample.  The claim says a zero `windowMs` makes the per-tick
timeout check never fire; in fact `playingTick`'s check
`(now - G.roundStartMs) >= G.windowMs` fires on the very first tick of a
zero-window round (`now = roundStartMs`), and in the rewrite even
`Timer::done` with a zero duration reports done immediately. -/
theorem c7_counterexample :
    playingTickTimesOut 1000 1000 0 = true ∧
    PartyRewrite.Timer.done ⟨1000, 0⟩ 1000 = true := by decide

/-- C7 (amended): only the `reflex_rush.ino` `Timer` helper treats a zero
duration as "untimed" (`done` is never true); the Playing-mode round timeout
does not go through `Timer` and fires on every tick when `windowMs = 0`, and
the rewrite's `Timer::done` fires immediately at duration zero. -/
theorem c7_zero_window_amended :
    (∀ now t0 : Nat, Timer.done ⟨t0, 0⟩ now = false) ∧
    (∀ now t0 : Nat, playingTickTimesOut now t0 0 = true) ∧
    (∀ now t0 : Nat, PartyRewrite.Timer.done ⟨t0, 0⟩ now = true) := by
  refine ⟨fun now t0 => ?_, fun now t0 => ?_, fun now t0 => ?_⟩ <;>
    simp [Timer.done, PartyRewrite.Timer.done, playingTickTimesOut]

/-- C8 counterexample.  The claim quantifies over every `uint16` value `v`,
but storing the all-ones value `0xFFFF = 65535` and reloading returns 0, not
65535: the sentinel is not round-trippable. -/
theorem c8_counterexample :
    eepromLoadHi (eepromSaveHi eepromFresh 0 65535) 0 = 0 ∧ (0 : Nat) ≠ 65535 := by
  decide

/-- C8 (amended): for every variant id and every `uint16` value except the
sentinel (`v < 0xFFFF`), storing then loading with no intervening write
returns `v`; storing the sentinel `0xFFFF` and reloading returns 0, and
loading from never-written (all-ones) storage returns 0. -/
theorem c8_roundtrip_amended :
    (∀ (rom : Nat → Nat) (id v : Nat), v < 65535 →
      eepromLoadHi (eepromSaveHi rom id v) id = v) ∧
    (∀ (rom : Nat → Nat) (id : Nat),
      eepromLoadHi (eepromSaveHi rom id 65535) id = 0) ∧
    (∀ id : Nat, eepromLoadHi eepromFresh id = 0) := by
  refine ⟨fun rom id v hv => ?_, fun rom id => ?_, fun id => ?_⟩ <;>
    simp [eepromLoadHi, eepromSaveHi, eepromFresh]
  rw [Nat.mod_eq_of_lt (by omega), if_neg (by omega)]

/-- C8 witness: the amended round trip at variant 2, value 123. -/
theorem c8_roundtrip_amended_witness :
    eepromLoadHi (eepromSaveHi eepromFresh 2 123) 2 = 123 :=
  c8_roundtrip_amended.1 eepromFresh 2 123 (by decide)

/-- C9 counterexample.  The claim says a button-down with an unrecognized id
is treated exactly like "no event" and never ends a Playing round.  But
`readButtons` passes the 6-bit button number through unchecked (a pressed
report with number 4 yields a down event for button 4), and the
CLSC/HARD/NOT branch of `playingHandleDown` treats any press different from
the expected button — including id 4 — as failure, ending the round. -/
theorem c9_counterexample :
    readButtons ⟨0, false⟩ (BUTTON_PRESSED_IND + 4) = ⟨4, true⟩ ∧
    playingHandleDown 2 4 = .gameOver := by decide

/-- C9 (amended): `readButtons` ignores only reports whose action tag is not
"pressed" (and the zero report); a pressed event with any id reaches the
engine, a press that differs from the expected button ends the round in
failure, and in particular every id outside {1, 2, 3} ends a CLSC/HARD/NOT
round in failure since it cannot equal the expected button. -/
theorem c9_malformed_input_amended :
    (∀ (prev : ButtonEvent) (raw : Nat), raw - raw % 64 ≠ BUTTON_PRESSED_IND →
      (readButtons prev raw).hasDown = false) ∧
    (∀ exp btn : Nat, btn ≠ exp → playingHandleDown exp btn = .gameOver) ∧
    (∀ exp btn : Nat, 1 ≤ exp → exp ≤ 3 → 4 ≤ btn →
      playingHandleDown exp btn = .gameOver) := by
  refine ⟨fun prev raw h => ?_, fun exp btn h => ?_, fun exp btn h1 h2 h3 => ?_⟩
  · by_cases h0 : raw = 0
    · simp [readButtons, h0]
    · simp [readButtons, h0, h]
  · simp [playingHandleDown, h]
  · simp [playingHandleDown]
    omega

/-- C9 witness: the amended statement at a release-tagged report and at a
pressed id 7 against expected button 3. -/
theorem c9_malformed_input_amended_witness :
    (readButtons ⟨0, false⟩ 128).hasDown = false ∧
    playingHandleDown 3 7 = .gameOver :=
  ⟨c9_malformed_input_amended.1 ⟨0, false⟩ 128 (by decide),
   c9_malformed_input_amended.2.2 3 7 (by decide) (by decide) (by decide)⟩

/-- C2 counterexample.  The claim says the trick stage is re-rolled only when
`score / 5` advances, in every escalating-trick session.  That is the
behaviour of the rewrite's `six7UpdateStageIfNeeded`, but `reflex_rush.ino`'s
67 game schedules re-rolls 6 or 7 successes apart instead: in the session
below (first re-roll at score 10 drawing stage `G67_CHORD` and step 6), the
round at score 15 still has stage `G67_CHORD` while the round at score 16
re-rolls to `G67_TRICK_MIX`, although 15 and 16 lie in the same
score/5 bucket. -/
theorem c2_counterexample :
    16 / 5 = 15 / 5 ∧
    (g67Run c2Draws 15).1 = G67_CHORD ∧
    (g67Run c2Draws 16).1 = G67_TRICK_MIX ∧
    G67_TRICK_MIX ≠ G67_CHORD := by decide

/-- C2 (amended): in the rewrite's 6OR7 game the claim holds as stated — the
stage of the round at score `n` is unchanged whenever `(n+1)/5 = n/5`, and
every round of the first bucket (score 0-4) has the plain no-trick stage
`S7_NORMAL` regardless of the draws.  In `reflex_rush.ino`'s 67 game the
stage is instead forced to `G67_INTRO` while `score < G67_INTRO_POINTS` and
is left unchanged until the score reaches the scheduled next-change score
(6 or 7 above the previous re-roll), so it can change inside a score/5
bucket. -/
theorem c2_stage_buckets_amended :
    (∀ (d : Nat → Nat) (n : Nat), n < 5 →
      (PartyRewrite.six7Run d n).1 = PartyRewrite.S7_NORMAL) ∧
    (∀ (d : Nat → Nat) (n : Nat), (n + 1) / 5 = n / 5 →
      (PartyRewrite.six7Run d (n + 1)).1 = (PartyRewrite.six7Run d n).1) ∧
    (∀ score stage nextAt rStage rStep : Nat, score < G67_INTRO_POINTS →
      (g67UpdateStageIfNeeded score stage nextAt rStage rStep).1 = G67_INTRO) ∧
    (∀ score stage nextAt rStage rStep : Nat, G67_INTRO_POINTS ≤ score →
      stage ≠ G67_INTRO → score < nextAt →
      g67UpdateStageIfNeeded score stage nextAt rStage rStep = (stage, nextAt)) := by
  refine ⟨PartyRewrite.six7Run_first_bucket,
    fun d n h => PartyRewrite.six7Run_same_bucket d n h,
    fun score stage nextAt rStage rStep h => ?_,
    fun score stage nextAt rStage rStep h hst hnext => ?_⟩
  · simp [g67UpdateStageIfNeeded, h]
  · rw [g67UpdateStageIfNeeded, if_neg (by omega), if_neg hst, if_neg (by omega)]

/-- C2 witness: the amended statement at concrete points — stage at scores
3 (first bucket) and 6/5-vs-5/5 constancy for a constant draw oracle, and the
67-game parts at concrete scores. -/
theorem c2_stage_buckets_amended_witness :
    (PartyRewrite.six7Run (fun _ => 9) 3).1 = PartyRewrite.S7_NORMAL ∧
    (PartyRewrite.six7Run (fun _ => 9) 7).1 = (PartyRewrite.six7Run (fun _ => 9) 6).1 ∧
    (g67UpdateStageIfNeeded 4 G67_CHORD 9 0 0).1 = G67_INTRO ∧
    g67UpdateStageIfNeeded 12 G67_CHORD 16 0 0 = (G67_CHORD, 16) :=
  ⟨c2_stage_buckets_amended.1 (fun _ => 9) 3 (by decide),
   c2_stage_buckets_amended.2.1 (fun _ => 9) 6 (by decide),
   c2_stage_buckets_amended.2.2.1 4 G67_CHORD 9 0 0 (by decide),
   c2_stage_buckets_amended.2.2.2 12 G67_CHORD 16 0 0 (by decide) (by decide)
     (by decide)⟩

/-- C3: for the ordered-pair (sequence) round of the 67 game that shows 6
then 7 — so the expectation set up by `g67ShowSeq` is first button 1, then
button 3 — `g67HandleDown` decides: (a) a first press of button 3 is
immediate failure; (b) once the second-step window `G67_SEQ_WIN_MS` has
elapsed since the (re-armed) step timer start, any press — even the matching
button 3 — is failure, because `g67SeqTimer.done` is checked before the
button identity; (c) a tick whose elapsed round time has reached the round
window ends the round (so waiting past the windows with no decision is
failure); (d) a correct first press of button 1 re-arms the step timer; and
(e) a second press of button 3 before the step window elapses is success. -/
theorem c3_ordered_pair_round :
    g67SeqDigits false false = (6, 7) ∧
    g67ShowSeqAssigns 6 7 = (1, 3) ∧
    (∀ (now : Nat) (ctm stm : Timer) (exp : Nat),
      g67HandleDown now 3 false false 0 ctm true false 1 3 stm exp = .gameOver) ∧
    (∀ (now t1 btn : Nat) (ctm : Timer) (exp : Nat),
      G67_SEQ_WIN_MS ≤ sub32 now t1 →
      g67HandleDown now btn false false 0 ctm true true 1 3 ⟨t1, G67_SEQ_WIN_MS⟩ exp =
        .gameOver) ∧
    (∀ now t0 w : Nat, w ≤ sub32 now t0 → playingTickTimesOut now t0 w = true) ∧
    (∀ (now : Nat) (ctm stm : Timer) (exp : Nat),
      g67HandleDown now 1 false false 0 ctm true false 1 3 stm exp =
        .pendingSeq ⟨now, G67_SEQ_WIN_MS⟩) ∧
    (∀ (now t1 : Nat) (ctm : Timer) (exp : Nat), sub32 now t1 < G67_SEQ_WIN_MS →
      g67HandleDown now 3 false false 0 ctm true true 1 3 ⟨t1, G67_SEQ_WIN_MS⟩ exp =
        .success) := by
  refine ⟨by decide, by decide, fun now ctm stm exp => by simp [g67HandleDown],
    fun now t1 btn ctm exp h => ?_, fun now t0 w h => ?_,
    fun now ctm stm exp => by simp [g67HandleDown], fun now t1 ctm exp h => ?_⟩
  · have hd : Timer.done ⟨t1, G67_SEQ_WIN_MS⟩ now = true := by
      simp [Timer.done, G67_SEQ_WIN_MS] at *
      omega
    simp [g67HandleDown, hd]
  · simp [playingTickTimesOut, h]
  · have hd : Timer.done ⟨t1, G67_SEQ_WIN_MS⟩ now = false := by
      simp [Timer.done, G67_SEQ_WIN_MS] at *
      omega
    simp [g67HandleDown, hd]

/-- C3 witness: the decided cases at concrete times (step timer armed at 60;
a press at 2000 is past the 950 ms step window, a press at 100 is inside
it). -/
theorem c3_ordered_pair_round_witness :
    g67HandleDown 2000 3 false false 0 ⟨0, 0⟩ true true 1 3 ⟨60, G67_SEQ_WIN_MS⟩ 0 =
      .gameOver ∧
    g67HandleDown 100 3 false false 0 ⟨0, 0⟩ true true 1 3 ⟨60, G67_SEQ_WIN_MS⟩ 0 =
      .success ∧
    playingTickTimesOut 2000 100 1800 = true :=
  ⟨c3_ordered_pair_round.2.2.2.1 2000 60 3 ⟨0, 0⟩ 0 (by decide),
   (c3_ordered_pair_round.2.2.2.2.2.2 100 60 ⟨0, 0⟩ 0 (by decide)),
   c3_ordered_pair_round.2.2.2.2.1 2000 100 1800 (by decide)⟩

/-- C5: for every draw `(a, b)` of the forbidden pair (both in {1,2,3} as
returned by `random(1, 4)`, and distinct as the resampling loop guarantees),
the stored pair is sorted ascending, the expected button computed by
`newRoundNot` is the unique member of {1,2,3} outside the pair, pressing it
is the unique success-producing press of `playingHandleDown`, and pressing
either forbidden value ends the round; moreover the modelled resampling loop
only ever returns a value distinct from `a`. -/
theorem c5_forbidden_round :
    (∀ a ∈ ([1, 2, 3] : List Nat), ∀ b ∈ ([1, 2, 3] : List Nat), b ≠ a →
      notRoundSpec a b) ∧
    (∀ (a b : Nat) (draws : List Nat), newRoundNotDrawB a draws = some b → b ≠ a) := by
  constructor
  · decide
  · intro a b draws h
    have := List.find?_some h
    simpa using this

/-- C5 witness: the full NOT-round shape for the concrete draw (1, 2), and
the resampling loop on the concrete stream [1, 1, 3]. -/
theorem c5_forbidden_round_witness :
    notRoundSpec 1 2 ∧ (3 : Nat) ≠ 1 :=
  ⟨c5_forbidden_round.1 1 (by decide) 2 (by decide) (by decide),
   c5_forbidden_round.2 1 3 [1, 1, 3] (by decide)⟩

/-- C4: for the Ptrn memory game, the sequence starts each session at length
1; completing a fully-correct replay (a live input-phase press of the final
expected element before the per-press timeout) extends the length by exactly
1 when below the 20-element cap and leaves it at 20 at the cap, increments
the score, and leaves every previously-correct element unchanged (so the old
prefix still matches element-for-element); and no transition whatsoever can
push the length above the cap. -/
theorem c4_memory_sequence :
    (∀ d now : Nat, (ptrnInit d now).len = 1) ∧
    (∀ (s : PtrnState) (now btn d : Nat), s.over = false → s.phase = .input →
      s.inputTimer.done now = false → btn = s.seq.getD s.idx 0 →
      s.len ≤ s.idx + 1 →
      (s.len < PTRN_MAX_SEQ → ((ptrnHandleDown now btn d s).1).len = s.len + 1) ∧
      (s.len = PTRN_MAX_SEQ → ((ptrnHandleDown now btn d s).1).len = PTRN_MAX_SEQ) ∧
      ((ptrnHandleDown now btn d s).1).score = s.score + 1 ∧
      (∀ i, i < s.len →
        ((ptrnHandleDown now btn d s).1).seq.getD i 0 = s.seq.getD i 0)) ∧
    (∀ (st : PtrnStep) (s : PtrnState), s.len ≤ PTRN_MAX_SEQ →
      ((ptrnApply st s).1).len ≤ PTRN_MAX_SEQ) := by
  refine ⟨fun d now => rfl, fun s now btn d hov hph htm hbtn hlast => ?_,
    fun st s h => ptrnApply_len_le st s h⟩
  obtain ⟨ph, sq, ln, ix, sp, sd, stm, itm, sc, ov⟩ := s
  dsimp only at hov hph htm hbtn hlast ⊢
  subst hov hph hbtn
  have hres : (ptrnHandleDown now (sq.getD ix 0) d
      ⟨.input, sq, ln, ix, sp, sd, stm, itm, sc, false⟩).1 =
      ptrnBeginShow now (ptrnExtend d
        ⟨.input, sq, ln, ix + 1, sp, sd, stm, ⟨now, PTRN_TIMEOUT_MS⟩, sc + 1, false⟩) := by
    simp [ptrnHandleDown, htm, hlast]
  refine ⟨?_, ?_, ?_, ?_⟩
  · intro hlt
    rw [hres]
    simp [ptrnBeginShow, ptrnExtend, hlt]
  · intro heq
    rw [hres]
    simp [ptrnBeginShow, ptrnExtend, heq]
  · rw [hres]
    by_cases hlt : ln < PTRN_MAX_SEQ <;> simp [ptrnBeginShow, ptrnExtend, hlt]
  · intro i hi
    rw [hres]
    by_cases hlt : ln < PTRN_MAX_SEQ
    · simp [ptrnBeginShow, ptrnExtend, hlt, List.getD_eq_getElem?_getD,
        List.getElem?_set_ne (show ln ≠ i by omega)]
    · simp [ptrnBeginShow, ptrnExtend, hlt]

/-- C4 witness: completing the replay of the length-1 state `c4State` (press
button 2, the stored element, at time 10, before the timeout armed at 5)
grows the stored sequence to length 2 and bumps the score to 1. -/
theorem c4_memory_sequence_witness :
    ((ptrnHandleDown 10 2 3 c4State).1).len = 2 ∧
    ((ptrnHandleDown 10 2 3 c4State).1).score = 1 := by
  have h := c4_memory_sequence.2.1 c4State 10 2 3 rfl rfl (by decide) (by decide)
    (by decide)
  exact ⟨h.1 (by decide), h.2.2.1⟩

/-- C10: in every reachable state of a Ptrn session the backing array keeps
its 20 declared elements with `1 ≤ ptrnLen ≤ PTRN_MAX_SEQ` and, whenever the
input phase is live, `ptrnIndex < ptrnLen`; consequently every index at
which any tick or button event reads `ptrnSeq` is strictly below the live
length and strictly within the array. -/
theorem c10_ptrn_bounds (s : PtrnState) (hs : PtrnReachable s) :
    PtrnInv s ∧
    ∀ (st : PtrnStep), ∀ i ∈ (ptrnApply st s).2, i < s.len ∧ i < s.seq.length := by
  have hinv := ptrnInv_reachable hs
  refine ⟨hinv, fun st i hi => ?_⟩
  have hlt := ptrnReads_lt st s hinv i hi
  obtain ⟨h1, h2, h3, h4⟩ := hinv
  exact ⟨hlt, by omega⟩

/-- C10 witness: the invariant holds at the concrete session entry state. -/
theorem c10_ptrn_bounds_witness : PtrnInv (ptrnInit 2 0) :=
  (c10_ptrn_bounds (ptrnInit 2 0) (PtrnReachable.init 2 0)).1

end Claims
